import Mathlib

/-!
Verification of the ArchGen prompt-to-diagram engine.

This file embeds the decision-and-layout engine of the repository
(`server/engine/gcp_blueprint.py`, `server/engine/generate.py`,
`server/engine/diagram_builder.py`) as executable Lean definitions and
proves properties of the classifier, the closure expander, the edge
materializer and the zone layout.

Python sets are modelled as `Finset String`, Python lists as `List`,
Python dicts as association lists, and the pixel geometry as `Int`
arithmetic.  Presentation-only data (display names, icons, colors, cost
notes, the human-readable decision trail) is not needed by any property
proved here and is omitted from the embedded records.
-/

set_option maxHeartbeats 2000000
set_option maxRecDepth 8000

namespace ArchGen

/-! ### gcp_blueprint.py — source categories and static tables -/

/-- SOURCE_TYPES["onprem"] from gcp_blueprint.py. -/
def SOURCE_TYPES_onprem : List String :=
  ["src_oracle", "src_sqlserver", "src_postgresql", "src_mongodb", "src_mysql", "src_mainframe"]

/-- SOURCE_TYPES["cross_cloud"] from gcp_blueprint.py. -/
def SOURCE_TYPES_cross_cloud : List String :=
  ["src_s3", "src_snowflake", "src_aws_rds", "src_azure_blob", "src_kinesis", "src_event_hubs", "src_dynamodb"]

/-- SOURCE_TYPES["saas"] from gcp_blueprint.py. -/
def SOURCE_TYPES_saas : List String :=
  ["src_salesforce", "src_workday", "src_servicenow", "src_sap", "src_hubspot", "src_jira",
   "src_zendesk", "src_netsuite", "src_shopify", "src_stripe", "src_dynamics365",
   "src_google_ads", "src_google_analytics", "src_marketo", "src_facebook_ads"]

/-- SOURCE_TYPES["streaming"] from gcp_blueprint.py. -/
def SOURCE_TYPES_streaming : List String :=
  ["src_kafka", "src_confluent"]

/-- SOURCE_TYPES["gcp_native"] from gcp_blueprint.py. -/
def SOURCE_TYPES_gcp_native : List String :=
  ["src_cloud_sql", "src_firestore", "src_alloydb", "src_gcs"]

/-- All ids appearing in SOURCE_TYPES (used to state that auto_wire never returns a source). -/
def SOURCE_TYPES_all : List String :=
  SOURCE_TYPES_onprem ++ SOURCE_TYPES_cross_cloud ++ SOURCE_TYPES_saas ++
  SOURCE_TYPES_streaming ++ SOURCE_TYPES_gcp_native

/-- One row of SOURCE_WIRING: connectivity, L3 ingestion and L4 landing additions. -/
structure Wiring where
  conn : List String
  l3 : List String
  l4 : List String

/-- SOURCE_WIRING["onprem"]. -/
def SOURCE_WIRING_onprem : Wiring :=
  ⟨["conn_vpn", "conn_vpc"], ["ing_datastream"], ["lake_gcs"]⟩

/-- SOURCE_WIRING["cross_cloud"]. -/
def SOURCE_WIRING_cross_cloud : Wiring :=
  ⟨["conn_entra_id", "conn_cyberark"], ["ing_datastream"], ["lake_gcs"]⟩

/-- SOURCE_WIRING["saas"]. -/
def SOURCE_WIRING_saas : Wiring :=
  ⟨["conn_armor", "conn_apigee"], ["ing_functions"], ["lake_gcs"]⟩

/-- SOURCE_WIRING["streaming"]. -/
def SOURCE_WIRING_streaming : Wiring :=
  ⟨[], ["ing_pubsub", "ing_dataflow"], ["lake_bq_staging"]⟩

/-- SOURCE_WIRING["gcp_native"]. -/
def SOURCE_WIRING_gcp_native : Wiring :=
  ⟨["conn_vpc"], ["ing_datastream"], ["lake_gcs"]⟩

/-- The set of ids a wiring row adds (`extra.update(w["conn"]); extra.update(w["l3"]); extra.update(w["l4"])`). -/
def Wiring.toSet (w : Wiring) : Finset String :=
  (w.conn ++ w.l3 ++ w.l4).toFinset

/-- ALWAYS_ON from gcp_blueprint.py: the ids every diagram receives. -/
def ALWAYS_ON : Finset String :=
  {"conn_iam", "conn_secret_manager", "lake_gcs", "proc_bq_sql", "proc_dlp",
   "bronze", "silver", "gold", "serve_looker", "con_looker",
   "pillar_sec", "pillar_gov", "pillar_obs", "pillar_orch"}

/-- SOURCE_KEYWORDS from gcp_blueprint.py: per source id, the trigger substrings. -/
def SOURCE_KEYWORDS : List (String × List String) := [
  ("src_oracle", ["oracle"]), ("src_sqlserver", ["sql server", "mssql", "sqlserver"]),
  ("src_postgresql", ["postgres"]), ("src_mongodb", ["mongodb", "mongo"]), ("src_mysql", ["mysql"]),
  ("src_salesforce", ["salesforce", "crm"]), ("src_workday", ["workday", "hcm", "hr data"]),
  ("src_servicenow", ["servicenow", "itsm"]), ("src_sap", ["sap", "erp"]),
  ("src_kafka", ["kafka", "event stream", "streaming"]), ("src_confluent", ["confluent"]),
  ("src_cloud_sql", ["cloud sql"]), ("src_alloydb", ["alloydb"]),
  ("src_sftp", ["sftp", "ftp"]), ("src_s3", ["s3", "aws", "csv", "parquet", "files"]),
  ("src_mainframe", ["mainframe", "as400", "cobol"]), ("src_rest_api", ["rest api", "webhook", "api source"]),
  ("src_snowflake", ["snowflake"]), ("src_hubspot", ["hubspot"]), ("src_jira", ["jira"]),
  ("src_zendesk", ["zendesk"]), ("src_google_ads", ["google ads"]),
  ("src_google_analytics", ["google analytics", "ga4"]), ("src_dynamics365", ["dynamics", "dynamics 365"]),
  ("src_netsuite", ["netsuite"]), ("src_shopify", ["shopify"]), ("src_stripe", ["stripe"])]

/-! ### gcp_blueprint.py — functions -/

/-- Model of Python `prompt.lower()` (ASCII case folding over the characters). -/
def str_lower (s : String) : String := ⟨s.data.map Char.toLower⟩

/-- Model of Python `kw in p`: the keyword occurs as a contiguous substring. -/
def substr_in (kw p : String) : Prop := kw.data <:+: p.data

instance (kw p : String) : Decidable (substr_in kw p) := by
  unfold substr_in; infer_instance

/-- Model of Python `any(s in type_list for s in source_ids)` inside auto_wire. -/
def hasSourceType (source_ids : Finset String) (type_list : List String) : Prop :=
  ∃ s ∈ source_ids, s ∈ type_list

instance (B : Finset String) (l : List String) : Decidable (hasSourceType B l) := by
  unfold hasSourceType; infer_instance

/-- Set component of `auto_wire` from gcp_blueprint.py: ALWAYS_ON plus the wiring
row of each source category present in `source_ids`, plus proc_dataflow when a
streaming source is present.  The returned human-readable decision strings carry
no selection information and are not modelled. -/
def auto_wire (source_ids : Finset String) : Finset String :=
  ALWAYS_ON
  ∪ (if hasSourceType source_ids SOURCE_TYPES_onprem then SOURCE_WIRING_onprem.toSet else ∅)
  ∪ (if hasSourceType source_ids SOURCE_TYPES_cross_cloud then SOURCE_WIRING_cross_cloud.toSet else ∅)
  ∪ (if hasSourceType source_ids SOURCE_TYPES_saas then SOURCE_WIRING_saas.toSet else ∅)
  ∪ (if hasSourceType source_ids SOURCE_TYPES_streaming then SOURCE_WIRING_streaming.toSet else ∅)
  ∪ (if hasSourceType source_ids SOURCE_TYPES_gcp_native then SOURCE_WIRING_gcp_native.toSet else ∅)
  ∪ (if hasSourceType source_ids SOURCE_TYPES_streaming then {"proc_dataflow"} else ∅)

/-- `parse_prompt` from gcp_blueprint.py: lower-case the prompt and collect every
source id one of whose keywords occurs as a substring. -/
def parse_prompt (prompt : String) : Finset String :=
  ((SOURCE_KEYWORDS.filter (fun kv =>
      kv.2.any (fun kw => decide (substr_in kw (str_lower prompt))))).map Prod.fst).toFinset

/-- Source-id selection of the keyword-fallback path of `route_prompt` in
generate.py: `sources = parse_prompt(prompt); if not sources: sources = {"src_oracle"}`. -/
def classify_sources (prompt : String) : Finset String :=
  if parse_prompt prompt = ∅ then {"src_oracle"} else parse_prompt prompt

/-- The keep set of `route_prompt` in generate.py before industry overlays:
`keep, _ = auto_wire(sources); keep |= sources`. -/
def route_keep_of_sources (sources : Finset String) : Finset String :=
  auto_wire sources ∪ sources

/-! ### auto_wire range lemmas -/

/-- Every id auto_wire can ever return (ALWAYS_ON plus every wiring row plus proc_dataflow). -/
def AUTO_WIRE_RANGE : Finset String :=
  ALWAYS_ON ∪ SOURCE_WIRING_onprem.toSet ∪ SOURCE_WIRING_cross_cloud.toSet ∪
  SOURCE_WIRING_saas.toSet ∪ SOURCE_WIRING_streaming.toSet ∪
  SOURCE_WIRING_gcp_native.toSet ∪ {"proc_dataflow"}

lemma auto_wire_subset_range (B : Finset String) : auto_wire B ⊆ AUTO_WIRE_RANGE := by
  unfold auto_wire
  split_ifs <;> decide

lemma always_on_subset_auto_wire (B : Finset String) : ALWAYS_ON ⊆ auto_wire B := by
  unfold auto_wire
  split_ifs <;> decide

lemma hasSourceType_union_of_disjoint (B C : Finset String) (l : List String)
    (h : ∀ s ∈ l, s ∉ C) : hasSourceType (B ∪ C) l ↔ hasSourceType B l := by
  unfold hasSourceType
  constructor
  · rintro ⟨s, hsBC, hsl⟩
    rcases Finset.mem_union.1 hsBC with hB | hC
    · exact ⟨s, hB, hsl⟩
    · exact absurd hC (h s hsl)
  · rintro ⟨s, hB, hsl⟩
    exact ⟨s, Finset.mem_union_left _ hB, hsl⟩

/-- The ids auto_wire adds are never themselves sources of any category, so the
category flags of an expanded set agree with those of the base set. -/
lemma hasSourceType_union_auto_wire (B : Finset String) (l : List String)
    (hl : ∀ s ∈ l, s ∉ AUTO_WIRE_RANGE) :
    hasSourceType (B ∪ auto_wire B) l ↔ hasSourceType B l :=
  hasSourceType_union_of_disjoint B (auto_wire B) l
    (fun s hs hmem => hl s hs (auto_wire_subset_range B hmem))

/-- auto_wire only looks at its argument through the five category flags. -/
lemma auto_wire_congr (B C : Finset String)
    (e1 : hasSourceType B SOURCE_TYPES_onprem ↔ hasSourceType C SOURCE_TYPES_onprem)
    (e2 : hasSourceType B SOURCE_TYPES_cross_cloud ↔ hasSourceType C SOURCE_TYPES_cross_cloud)
    (e3 : hasSourceType B SOURCE_TYPES_saas ↔ hasSourceType C SOURCE_TYPES_saas)
    (e4 : hasSourceType B SOURCE_TYPES_streaming ↔ hasSourceType C SOURCE_TYPES_streaming)
    (e5 : hasSourceType B SOURCE_TYPES_gcp_native ↔ hasSourceType C SOURCE_TYPES_gcp_native) :
    auto_wire B = auto_wire C := by
  unfold auto_wire
  rw [if_congr e1 rfl rfl, if_congr e2 rfl rfl, if_congr e3 rfl rfl,
      if_congr e4 rfl rfl, if_congr e5 rfl rfl, if_congr e4 rfl rfl]

lemma auto_wire_of_union_auto_wire (B : Finset String) :
    auto_wire (auto_wire B ∪ B) = auto_wire B := by
  rw [Finset.union_comm (auto_wire B) B]
  exact auto_wire_congr (B ∪ auto_wire B) B
    (hasSourceType_union_auto_wire B SOURCE_TYPES_onprem (by decide))
    (hasSourceType_union_auto_wire B SOURCE_TYPES_cross_cloud (by decide))
    (hasSourceType_union_auto_wire B SOURCE_TYPES_saas (by decide))
    (hasSourceType_union_auto_wire B SOURCE_TYPES_streaming (by decide))
    (hasSourceType_union_auto_wire B SOURCE_TYPES_gcp_native (by decide))

/-! ### C3 — idempotence of closure expansion -/

/-- C3 counterexample: applying auto_wire to its own output is not a no-op.
`auto_wire({src_oracle})` contains conn_vpn, but re-expanding that output drops
it, because the output contains no source id and hence triggers no wiring row. -/
theorem auto_wire_not_idempotent :
    auto_wire (auto_wire {"src_oracle"}) ≠ auto_wire {"src_oracle"} := by decide

/-- C3 (amended): the closure step actually composed by the pipeline —
`keep = auto_wire(sources); keep |= sources` in route_prompt — is idempotent:
re-running it on an already-expanded selection is a no-op. -/
theorem route_keep_idempotent (B : Finset String) :
    route_keep_of_sources (route_keep_of_sources B) = route_keep_of_sources B := by
  unfold route_keep_of_sources
  rw [auto_wire_of_union_auto_wire B, ← Finset.union_assoc, Finset.union_self]

/-! ### C4 — monotone (inflationary) closure -/

/-- C4 counterexample: the base set is not a subset of auto_wire's returned set;
auto_wire({src_oracle}) does not contain src_oracle itself. -/
theorem base_not_subset_auto_wire :
    ¬ (({"src_oracle"} : Finset String) ⊆ auto_wire {"src_oracle"}) := by decide

/-- C4 (amended): the base set is a subset of the pipeline's closure set
`auto_wire(B) ∪ B`, the set route_prompt builds with `keep |= sources`. -/
theorem base_subset_route_keep (B : Finset String) (x : String) (hx : x ∈ B) :
    x ∈ route_keep_of_sources B :=
  Finset.mem_union_right _ hx

theorem base_subset_route_keep_witness :
    "src_oracle" ∈ route_keep_of_sources {"src_oracle"} :=
  base_subset_route_keep {"src_oracle"} "src_oracle" (by decide)

/-! ### C5 — always-on presence -/

/-- C5: for every base set, auto_wire's output contains the whole mandatory
always-on set: identity, secret storage, the bronze/silver/gold progression,
the default BI node, and the observability, governance and orchestration
pillars. -/
theorem always_on_present (B : Finset String) :
    "conn_iam" ∈ auto_wire B ∧ "conn_secret_manager" ∈ auto_wire B ∧
    "bronze" ∈ auto_wire B ∧ "silver" ∈ auto_wire B ∧ "gold" ∈ auto_wire B ∧
    "serve_looker" ∈ auto_wire B ∧ "pillar_obs" ∈ auto_wire B ∧
    "pillar_gov" ∈ auto_wire B ∧ "pillar_orch" ∈ auto_wire B := by
  have h := always_on_subset_auto_wire B
  exact ⟨h (by decide), h (by decide), h (by decide), h (by decide), h (by decide),
         h (by decide), h (by decide), h (by decide), h (by decide)⟩

/-! ### C7 — non-empty default classification -/

/-- C7: classifying the empty prompt yields the documented single-source
fallback `{src_oracle}`, which is non-empty, so an empty selection never
reaches the closure expander. -/
theorem classify_empty_nonempty :
    classify_sources "" = {"src_oracle"} ∧ (classify_sources "").Nonempty := by
  constructor <;> decide

/-! ### C10 — auto_wire returns no source ids -/

/-- C10: the expansion only ever adds connectivity, ingestion, landing,
processing and always-on infrastructure: no id returned by auto_wire is listed
in SOURCE_TYPES or carries the `src_` prefix, so callers must union the base
set back in themselves (as route_prompt does with `keep |= sources`). -/
theorem auto_wire_no_source_ids (B : Finset String) (x : String)
    (hx : x ∈ auto_wire B) :
    x ∉ SOURCE_TYPES_all ∧ ¬ ("src_".data <+: x.data) := by
  have hall : ∀ y ∈ AUTO_WIRE_RANGE, y ∉ SOURCE_TYPES_all ∧ ¬ ("src_".data <+: y.data) := by
    decide
  exact hall x (auto_wire_subset_range B hx)

theorem auto_wire_no_source_ids_witness :
    "conn_vpn" ∉ SOURCE_TYPES_all ∧ ¬ ("src_".data <+: "conn_vpn".data) :=
  auto_wire_no_source_ids {"src_oracle"} "conn_vpn" (by decide)

/-! ### gcp_blueprint.py — NODES catalog (id and zone; display fields omitted) -/

/-- NODES from gcp_blueprint.py as (id, zone) pairs. -/
def NODES : List (String × String) := [
  ("src_salesforce", "sources"), ("src_hubspot", "sources"), ("src_dynamics365", "sources"),
  ("src_workday", "sources"), ("src_sap", "sources"), ("src_netsuite", "sources"),
  ("src_adp", "sources"), ("src_bamboohr", "sources"), ("src_servicenow", "sources"),
  ("src_jira", "sources"), ("src_zendesk", "sources"), ("src_google_ads", "sources"),
  ("src_facebook_ads", "sources"), ("src_google_analytics", "sources"),
  ("src_adobe_analytics", "sources"), ("src_marketo", "sources"), ("src_facebook", "sources"),
  ("src_twitter", "sources"), ("src_linkedin", "sources"), ("src_instagram", "sources"),
  ("src_youtube", "sources"), ("src_tiktok", "sources"), ("src_apple_store", "sources"),
  ("src_google_play", "sources"), ("src_shopify", "sources"), ("src_stripe", "sources"),
  ("src_oracle", "sources"), ("src_sqlserver", "sources"), ("src_postgresql", "sources"),
  ("src_mysql", "sources"), ("src_cloud_sql", "sources"), ("src_alloydb", "sources"),
  ("src_mongodb", "sources"), ("src_cassandra", "sources"), ("src_elasticsearch", "sources"),
  ("src_redis", "sources"), ("src_dynamodb", "sources"), ("src_firestore", "sources"),
  ("src_neo4j", "sources"), ("src_kafka", "sources"), ("src_confluent", "sources"),
  ("src_kinesis", "sources"), ("src_event_hubs", "sources"), ("src_rabbitmq", "sources"),
  ("src_mqtt", "sources"), ("src_sftp", "sources"), ("src_s3", "sources"),
  ("src_azure_blob", "sources"), ("src_sharepoint", "sources"), ("src_gcs", "sources"),
  ("src_aws_rds", "sources"), ("src_snowflake", "sources"), ("src_databricks", "sources"),
  ("src_rest_api", "sources"), ("src_mainframe", "sources"), ("src_as400", "sources"),
  ("src_mq_series", "sources"), ("src_ftp", "sources"), ("src_flat_file", "sources"),
  ("conn_cloud_identity", "connectivity"), ("conn_identity_platform", "connectivity"),
  ("conn_iam", "connectivity"), ("conn_entra_id", "connectivity"),
  ("conn_cyberark", "connectivity"), ("conn_keeper", "connectivity"),
  ("conn_secret_manager", "connectivity"), ("conn_vpn", "connectivity"),
  ("conn_interconnect", "connectivity"), ("conn_vpc", "connectivity"),
  ("conn_armor", "connectivity"), ("conn_dns", "connectivity"),
  ("conn_apigee", "connectivity"), ("conn_api_gateway", "connectivity"),
  ("ing_datastream", "cloud"), ("ing_pubsub", "cloud"), ("ing_dataflow", "cloud"),
  ("ing_functions", "cloud"), ("ing_fivetran", "cloud"), ("ing_matillion", "cloud"),
  ("lake_gcs", "cloud"), ("lake_bq_staging", "cloud"),
  ("proc_dataflow", "cloud"), ("proc_dataproc", "cloud"), ("proc_bq_sql", "cloud"),
  ("proc_dlp", "cloud"), ("proc_matillion", "cloud"),
  ("bronze", "cloud"), ("silver", "cloud"), ("gold", "cloud"),
  ("serve_looker", "cloud"), ("serve_run", "cloud"), ("serve_hub", "cloud"),
  ("serve_bi_engine", "cloud"),
  ("con_looker", "consumers"), ("con_sheets", "consumers"), ("con_vertex", "consumers"),
  ("con_run", "consumers"), ("con_hub", "consumers"), ("con_powerbi", "consumers"),
  ("con_tableau", "consumers"), ("con_slicer", "consumers"),
  ("pillar_sec", "cloud"), ("pillar_gov", "cloud"), ("pillar_obs", "cloud"),
  ("pillar_orch", "cloud")]

/-! ### gcp_blueprint.py — industry overlays and generate.py routing -/

/-- One INDUSTRY_TAGS row (keywords and required_products; compliance and
description strings feed only the human-readable output). -/
structure IndustryTag where
  keywords : List String
  required_products : List String

/-- INDUSTRY_TAGS from gcp_blueprint.py. -/
def INDUSTRY_TAGS : List (String × IndustryTag) := [
  ("healthcare", ⟨["healthcare", "hipaa", "ehr", "clinical", "patient", "hospital", "medical",
                   "pharma", "health system", "phi"],
                  ["proc_dlp", "conn_vpc", "pillar_sec", "pillar_gov"]⟩),
  ("fintech", ⟨["fintech", "banking", "pci", "fraud", "transaction", "financial", "payment",
                "sox", "insurance", "lending", "credit"],
               ["proc_dlp", "conn_vpc", "conn_armor", "pillar_sec", "pillar_gov"]⟩),
  ("retail", ⟨["retail", "store", "pos", "omnichannel", "inventory", "supply chain retail",
               "cpg", "consumer goods"],
              ["proc_dlp"]⟩),
  ("manufacturing", ⟨["manufacturing", "factory", "production", "quality control", "oee",
                      "scada", "plc", "assembly line"],
                     []⟩),
  ("media", ⟨["media", "entertainment", "content", "audience", "streaming media", "ad tech",
              "publishing", "news"],
             ["proc_dlp"]⟩),
  ("government", ⟨["government", "gov", "fedramp", "public sector", "state", "federal",
                   "military", "dod"],
                  ["conn_vpc", "pillar_sec", "pillar_gov", "proc_dlp"]⟩)]

/-- `match_industry` from gcp_blueprint.py: first industry (in table order) one
of whose keywords occurs in the lower-cased prompt. -/
def match_industry (prompt : String) : Option String :=
  (INDUSTRY_TAGS.find? (fun kv =>
      kv.2.keywords.any (fun kw => decide (substr_in kw (str_lower prompt))))).map Prod.fst

/-- The required_products of an industry id (empty when unknown). -/
def industry_required (ind : String) : List String :=
  match INDUSTRY_TAGS.lookup ind with
  | some t => t.required_products
  | none => []

/-- The keep set computed by the keyword-fallback path of `route_prompt` in
generate.py: classify, auto_wire, union the sources back in, then add the
required products of a matched industry when they exist in NODES. -/
def route_keep (prompt : String) : Finset String :=
  let sources := classify_sources prompt
  let keep := route_keep_of_sources sources
  match match_industry prompt with
  | none => keep
  | some ind =>
      keep ∪ ((industry_required ind).filter (fun pid => (NODES.lookup pid).isSome)).toFinset

/-- The rule-based anti-pattern notes computed in `main` of generate.py from
the classified sources and the keep set. -/
def anti_patterns (sources keep : Finset String) : List String :=
  (if (∃ s ∈ (["src_kafka", "src_confluent", "src_kinesis"] : List String), s ∈ sources) ∧
      ¬ (∃ s ∈ (["src_oracle", "src_sqlserver", "src_postgresql", "src_mysql"] : List String),
           s ∈ sources)
   then ["Streaming-only — consider batch sources for backfill"] else [])
  ++
  (if (∃ s ∈ (["src_salesforce", "src_workday", "src_hubspot"] : List String), s ∈ sources) ∧
      "proc_dlp" ∉ keep
   then ["SaaS source without DLP — PII risk"] else [])

/-! ### C8 — Kafka streaming scenario -/

/-- C8 counterexample: for the prompt "Kafka streaming to BigQuery with
Dataflow" the pipeline's anti_patterns list is not empty — the rule-based check
in generate.py flags a streaming-only selection with no batch source. -/
theorem kafka_anti_patterns_nonempty :
    anti_patterns (classify_sources "Kafka streaming to BigQuery with Dataflow")
      (route_keep "Kafka streaming to BigQuery with Dataflow") ≠ [] := by
  decide

/-- C8 (amended): for the prompt "Kafka streaming to BigQuery with Dataflow"
the closure set includes the streaming ingestion path (ing_pubsub,
ing_dataflow, proc_dataflow) and not the batch-CDC id ing_datastream, and the
anti_patterns list consists exactly of the streaming-only backfill warning. -/
theorem kafka_streaming_scenario :
    "ing_pubsub" ∈ route_keep "Kafka streaming to BigQuery with Dataflow" ∧
    "ing_dataflow" ∈ route_keep "Kafka streaming to BigQuery with Dataflow" ∧
    "proc_dataflow" ∈ route_keep "Kafka streaming to BigQuery with Dataflow" ∧
    "ing_datastream" ∉ route_keep "Kafka streaming to BigQuery with Dataflow" ∧
    anti_patterns (classify_sources "Kafka streaming to BigQuery with Dataflow")
      (route_keep "Kafka streaming to BigQuery with Dataflow")
      = ["Streaming-only — consider batch sources for backfill"] := by
  refine ⟨by decide, by decide, by decide, by decide, by decide⟩

/-! ### gcp_blueprint.py — EDGES table and get_edges_for -/

/-- One row of the EDGES list in gcp_blueprint.py. -/
structure BPEdge where
  fromId : String
  toId : String
  label : String
  type : String
deriving DecidableEq

/-- Shorthand constructor mirroring one EDGES dict literal. -/
def bpe (f t l ty : String) : BPEdge := ⟨f, t, l, ty⟩

/-- EDGES from gcp_blueprint.py. -/
def EDGES : List BPEdge := [
  bpe "src_oracle" "conn_vpn" "JDBC/CDC" "data",
  bpe "src_sqlserver" "conn_vpn" "JDBC/CDC" "data",
  bpe "src_postgresql" "conn_vpn" "WAL CDC" "data",
  bpe "src_mongodb" "conn_vpn" "Change Strm" "data",
  bpe "src_mysql" "conn_vpn" "CDC" "data",
  bpe "src_mainframe" "conn_vpn" "batch" "data",
  bpe "src_salesforce" "conn_armor" "REST API" "data",
  bpe "src_workday" "conn_armor" "RaaS/API" "data",
  bpe "src_servicenow" "conn_armor" "Table API" "data",
  bpe "src_sap" "conn_armor" "OData" "data",
  bpe "src_hubspot" "conn_armor" "REST API" "data",
  bpe "src_jira" "conn_armor" "REST API" "data",
  bpe "src_zendesk" "conn_armor" "REST API" "data",
  bpe "src_google_ads" "conn_armor" "API" "data",
  bpe "src_shopify" "conn_armor" "GraphQL" "data",
  bpe "src_stripe" "conn_armor" "webhook" "data",
  bpe "src_netsuite" "conn_armor" "SuiteTalk" "data",
  bpe "src_dynamics365" "conn_armor" "Dataverse" "data",
  bpe "src_s3" "conn_entra_id" "cross-cloud" "data",
  bpe "src_snowflake" "conn_entra_id" "export" "data",
  bpe "src_aws_rds" "conn_entra_id" "cross-cloud" "data",
  bpe "src_azure_blob" "conn_entra_id" "cross-cloud" "data",
  bpe "src_kafka" "ing_pubsub" "subscribe" "data",
  bpe "src_confluent" "ing_pubsub" "subscribe" "data",
  bpe "src_cloud_sql" "conn_vpc" "CDC" "data",
  bpe "src_alloydb" "conn_vpc" "CDC" "data",
  bpe "src_firestore" "conn_vpc" "export" "data",
  bpe "src_sftp" "ing_functions" "SFTP pull" "data",
  bpe "src_rest_api" "ing_functions" "HTTP" "data",
  bpe "conn_entra_id" "conn_cloud_identity" "SAML SSO" "identity",
  bpe "conn_cyberark" "conn_secret_manager" "PAM sync" "identity",
  bpe "conn_keeper" "conn_secret_manager" "secrets" "identity",
  bpe "conn_iam" "conn_secret_manager" "WIF" "identity",
  bpe "conn_vpn" "ing_datastream" "tunnel" "data",
  bpe "conn_vpc" "ing_datastream" "private" "data",
  bpe "conn_armor" "ing_functions" "filtered" "data",
  bpe "conn_apigee" "ing_functions" "managed" "data",
  bpe "conn_iam" "ing_datastream" "auth" "identity",
  bpe "ing_datastream" "lake_gcs" "CDC" "data",
  bpe "ing_pubsub" "ing_dataflow" "events" "data",
  bpe "ing_dataflow" "lake_bq_staging" "stream" "data",
  bpe "ing_functions" "lake_gcs" "write" "data",
  bpe "ing_fivetran" "lake_bq_staging" "sync" "data",
  bpe "ing_matillion" "lake_bq_staging" "ELT" "data",
  bpe "lake_gcs" "proc_bq_sql" "read" "data",
  bpe "lake_gcs" "proc_dataproc" "read" "data",
  bpe "lake_bq_staging" "proc_bq_sql" "SQL ELT" "data",
  bpe "lake_bq_staging" "proc_dataflow" "stream" "data",
  bpe "proc_bq_sql" "bronze" "transform" "data",
  bpe "proc_dataflow" "bronze" "stream" "data",
  bpe "proc_dataproc" "bronze" "spark" "data",
  bpe "proc_matillion" "bronze" "ELT" "data",
  bpe "proc_bq_sql" "proc_dlp" "PII scan" "quality",
  bpe "proc_dlp" "silver" "mask" "quality",
  bpe "bronze" "silver" "quality gate" "data",
  bpe "silver" "gold" "quality gate" "data",
  bpe "gold" "serve_looker" "governed BI" "data",
  bpe "gold" "serve_run" "serving API" "data",
  bpe "gold" "serve_hub" "data exchange" "data",
  bpe "gold" "serve_bi_engine" "BI Engine" "data",
  bpe "serve_looker" "con_looker" "dashboards" "data",
  bpe "serve_looker" "con_sheets" "sheets" "data",
  bpe "serve_run" "con_run" "API" "data",
  bpe "serve_hub" "con_hub" "subscribe" "data",
  bpe "gold" "con_vertex" "ML data" "data",
  bpe "gold" "con_powerbi" "DirectQuery" "data",
  bpe "gold" "con_tableau" "extract" "data",
  bpe "gold" "con_slicer" "ad-hoc" "data",
  bpe "pillar_orch" "proc_bq_sql" "trigger" "control",
  bpe "pillar_orch" "ing_dataflow" "trigger" "control",
  bpe "pillar_orch" "ing_datastream" "schedule" "control",
  bpe "ing_dataflow" "pillar_obs" "metrics" "observe",
  bpe "proc_bq_sql" "pillar_obs" "logs" "observe",
  bpe "pillar_orch" "pillar_obs" "DAG logs" "observe",
  bpe "pillar_gov" "bronze" "quality" "control",
  bpe "pillar_gov" "silver" "lineage" "control",
  bpe "pillar_gov" "gold" "catalog" "control",
  bpe "pillar_sec" "conn_iam" "policy" "control",
  bpe "pillar_sec" "gold" "CMEK" "control"]

/-- `get_edges_for` from gcp_blueprint.py: only edges where BOTH endpoints are
in the keep set. -/
def get_edges_for (keep_set : Finset String) : List BPEdge :=
  EDGES.filter (fun e => decide (e.fromId ∈ keep_set ∧ e.toId ∈ keep_set))

/-! ### diagram_builder.py — ID bridge and product catalog -/

/-- ID_MAP from diagram_builder.py: gcp_blueprint ids → diagram_builder ids. -/
def ID_MAP : List (String × String) := [
  ("src_oracle", "oracle_db"), ("src_sqlserver", "sqlserver_db"),
  ("src_postgresql", "postgresql_db"), ("src_mongodb", "mongodb_db"),
  ("src_mysql", "oracle_db"),
  ("src_s3", "aws_s3"), ("src_salesforce", "salesforce"),
  ("src_workday", "workday"), ("src_servicenow", "servicenow_src"),
  ("src_sap", "sap_src"), ("src_kafka", "kafka_stream"),
  ("src_cloud_sql", "cloud_sql"), ("src_sftp", "sftp_server"),
  ("conn_iam", "cloud_iam"), ("conn_cloud_identity", "cloud_iam"),
  ("conn_secret_manager", "secret_manager"), ("conn_vpn", "cloud_vpn"),
  ("conn_vpc", "vpc"), ("conn_armor", "cloud_armor"),
  ("conn_apigee", "apigee"), ("conn_entra_id", "entra_id"),
  ("conn_cyberark", "cyberark"),
  ("ing_pubsub", "pubsub"), ("ing_dataflow", "dataflow_ing"),
  ("ing_datastream", "datastream"), ("ing_functions", "cloud_functions"),
  ("ing_fivetran", "fivetran"), ("ing_matillion", "matillion"),
  ("lake_gcs", "gcs_raw"), ("lake_bq_staging", "bq_staging"),
  ("proc_bq_sql", "dataform"), ("proc_dataflow", "dataflow_proc"),
  ("proc_dataproc", "dataproc"), ("proc_dlp", "cloud_dlp"),
  ("proc_matillion", "matillion"),
  ("serve_looker", "looker"), ("serve_run", "cloud_run"),
  ("serve_hub", "analytics_hub"), ("serve_bi_engine", "looker"),
  ("con_looker", "analysts"), ("con_run", "downstream_sys"),
  ("con_hub", "downstream_sys"), ("con_powerbi", "executives"),
  ("con_vertex", "data_scientists"),
  ("pillar_sec", "scc_pillar"), ("pillar_gov", "dataplex"),
  ("pillar_obs", "cloud_monitoring"), ("pillar_orch", "cloud_composer")]

/-- PRODUCTS from diagram_builder.py as (id, zone) pairs (display fields omitted). -/
def PRODUCTS : List (String × String) := [
  ("oracle_db", "source"), ("sqlserver_db", "source"), ("postgresql_db", "source"),
  ("mongodb_db", "source"), ("aws_s3", "source"), ("salesforce", "source"),
  ("workday", "source"), ("servicenow_src", "source"), ("sap_src", "source"),
  ("kafka_stream", "source"), ("cloud_sql", "source"), ("sftp_server", "source"),
  ("cloud_iam", "gcp-security"), ("cloud_kms", "gcp-security"),
  ("secret_manager", "gcp-security"), ("vpc", "gcp-security"), ("vpc_sc", "gcp-security"),
  ("cloud_armor", "gcp-security"), ("cloud_vpn", "gcp-security"), ("apigee", "gcp-security"),
  ("entra_id", "ext-identity"), ("cyberark", "ext-identity"),
  ("datastream", "ingestion"), ("pubsub", "ingestion"), ("dataflow_ing", "ingestion"),
  ("bq_dts", "ingestion"), ("cloud_functions", "ingestion"), ("fivetran", "ingestion"),
  ("matillion", "ingestion"), ("data_fusion", "ingestion"), ("storage_transfer", "ingestion"),
  ("gcs_raw", "landing"), ("bq_staging", "landing"),
  ("dataform", "processing"), ("dataflow_proc", "processing"), ("dataproc", "processing"),
  ("bronze", "medallion"), ("silver", "medallion"), ("gold", "medallion"),
  ("looker", "serving"), ("looker_studio", "serving"), ("power_bi", "serving"),
  ("cloud_run", "serving"), ("vertex_ai", "serving"), ("analytics_hub", "serving"),
  ("analysts", "consumer"), ("data_scientists", "consumer"),
  ("downstream_sys", "consumer"), ("executives", "consumer"),
  ("cloud_composer", "orchestration"), ("cloud_scheduler", "orchestration"),
  ("cloud_monitoring", "gcp-obs"), ("cloud_logging", "gcp-obs"),
  ("audit_logs", "gcp-obs"), ("scc_pillar", "gcp-obs"),
  ("dataplex", "governance"), ("data_catalog", "governance"),
  ("dataplex_dq", "governance"), ("cloud_dlp", "governance"),
  ("pagerduty_inc", "ext-alert"), ("wiz_cspm", "ext-alert"), ("archer_grc", "ext-alert"),
  ("splunk_siem", "ext-log"), ("dynatrace_apm", "ext-log")]

/-- `_guess_zone` from diagram_builder.py: zone for a blueprint id not in the
static catalog, from the id prefix and then the blueprint node's zone field. -/
def guess_zone (pid : String) (bp_zone : String) : String :=
  if "src_".data <+: pid.data then "source"
  else if "conn_".data <+: pid.data then "gcp-security"
  else if "ing_".data <+: pid.data then "ingestion"
  else if "lake_".data <+: pid.data then "landing"
  else if "proc_".data <+: pid.data then "processing"
  else if "serve_".data <+: pid.data then "serving"
  else if "con_".data <+: pid.data then "consumer"
  else if "pillar_".data <+: pid.data then "governance"
  else if bp_zone = "sources" then "source"
  else if bp_zone = "consumers" then "consumer"
  else if bp_zone = "connectivity" then "gcp-security"
  else "gcp-security"

/-- `_resolve_keep_set` per element: a PRODUCTS id stays, a mapped id whose
image is in PRODUCTS resolves to the image, and otherwise a blueprint id is
taken over dynamically (it becomes a catalog entry with a guessed zone). -/
def resolve_id (pid : String) : Option String :=
  if (PRODUCTS.lookup pid).isSome then some pid
  else
    match ID_MAP.lookup pid with
    | some m =>
        if (PRODUCTS.lookup m).isSome then some m
        else if (NODES.lookup pid).isSome then some pid else none
    | none => if (NODES.lookup pid).isSome then some pid else none

/-- `_resolve_keep_set` from diagram_builder.py. -/
def resolve_keep_set (keep_set : Finset String) : Finset String :=
  keep_set.biUnion (fun pid => (resolve_id pid).toFinset)

/-- Zone of a product id as seen by build_diagram after resolution: the static
catalog first, then the guessed zone of a dynamically added blueprint id,
otherwise the empty default of `PRODUCTS.get(pid, {}).get("zone", "")`. -/
def product_zone (pid : String) : String :=
  match PRODUCTS.lookup pid with
  | some z => z
  | none =>
      match NODES.lookup pid with
      | some bz => guess_zone pid bz
      | none => ""

/-- GCP_ZONES from diagram_builder.py. -/
def GCP_ZONES : List String :=
  ["gcp-security", "ingestion", "landing", "processing", "medallion",
   "serving", "orchestration", "gcp-obs", "governance"]

/-! ### diagram_builder.py — EDGE_RULES -/

/-- Security metadata attached to an edge rule. -/
structure SecurityMeta where
  transport : String
  auth : String
  classification : String
  priv : Bool
deriving DecidableEq

/-- One entry of EDGE_RULES in diagram_builder.py. -/
structure EdgeRule where
  from_any : List String
  toId : String
  label : String
  edgeType : String
  security : Option SecurityMeta
deriving DecidableEq

/-- Shorthand constructor for a rule without security metadata. -/
def rule (fs : List String) (t l ty : String) : EdgeRule := ⟨fs, t, l, ty, none⟩

/-- EDGE_RULES from diagram_builder.py. -/
def EDGE_RULES : List EdgeRule := [
  ⟨["oracle_db", "sqlserver_db", "postgresql_db"], "datastream", "CDC", "data",
    some ⟨"TLS 1.3 + IPSec", "Service Account", "PII / Confidential", true⟩⟩,
  ⟨["mongodb_db"], "datastream", "Change stream", "data",
    some ⟨"TLS 1.3", "x509 cert", "PII", true⟩⟩,
  ⟨["kafka_stream"], "pubsub", "Events", "data",
    some ⟨"TLS 1.3", "SASL/OAuth", "Transactional", true⟩⟩,
  rule ["aws_s3"] "bq_dts" "S3 → BQ" "data",
  rule ["aws_s3"] "storage_transfer" "Bulk copy" "data",
  rule ["salesforce", "workday", "servicenow_src"] "cloud_functions" "API pull" "data",
  rule ["salesforce", "workday", "servicenow_src"] "fivetran" "Managed ELT" "data",
  rule ["sap_src"] "data_fusion" "OData" "data",
  rule ["sftp_server"] "cloud_functions" "File pull" "data",
  rule ["cloud_sql"] "datastream" "CDC" "data",
  rule ["datastream", "cloud_functions", "data_fusion", "storage_transfer"] "gcs_raw" "Raw files" "data",
  rule ["bq_dts", "fivetran", "matillion", "dataflow_ing"] "bq_staging" "Direct load" "data",
  rule ["pubsub"] "dataflow_ing" "Stream" "data",
  rule ["gcs_raw"] "dataform" "ELT" "data",
  rule ["gcs_raw"] "dataflow_proc" "Process" "data",
  rule ["gcs_raw"] "dataproc" "Spark" "data",
  rule ["bq_staging"] "dataform" "SQL transform" "data",
  rule ["bq_staging"] "dataflow_proc" "Process" "data",
  rule ["bq_staging"] "dataproc" "Spark job" "data",
  rule ["dataform", "dataflow_proc", "dataproc"] "bronze" "Ingest" "data",
  rule ["bronze"] "silver" "Clean" "data",
  rule ["silver"] "gold" "Curate" "data",
  rule ["gold"] "looker" "Governed BI" "data",
  rule ["gold"] "looker_studio" "Dashboards" "data",
  rule ["gold"] "power_bi" "DirectQuery" "data",
  rule ["gold"] "vertex_ai" "Features" "data",
  rule ["gold"] "cloud_run" "API" "data",
  rule ["gold"] "analytics_hub" "Data share" "data",
  rule ["looker", "looker_studio", "power_bi"] "analysts" "Reports" "data",
  rule ["looker"] "executives" "Exec reports" "data",
  rule ["vertex_ai"] "data_scientists" "ML models" "data",
  rule ["cloud_run"] "downstream_sys" "REST API" "data",
  rule ["analytics_hub"] "downstream_sys" "Data share" "data",
  rule ["entra_id"] "cloud_iam" "SSO" "identity",
  rule ["cyberark"] "secret_manager" "Cred sync" "identity",
  rule ["cloud_composer"] "dataform" "Trigger" "control",
  rule ["cloud_composer"] "dataflow_proc" "Trigger" "control",
  rule ["cloud_composer"] "dataproc" "Trigger" "control",
  rule ["cloud_scheduler"] "cloud_functions" "Cron" "control",
  rule ["audit_logs"] "cloud_logging" "Logs" "observe",
  rule ["cloud_logging"] "cloud_monitoring" "Metrics" "observe",
  rule ["cloud_monitoring"] "pagerduty_inc" "Alerts" "alert",
  rule ["cloud_monitoring"] "wiz_cspm" "Posture" "alert",
  rule ["cloud_logging"] "splunk_siem" "Log export" "observe",
  rule ["cloud_logging"] "dynatrace_apm" "Traces" "observe",
  rule ["cloud_iam"] "datastream" "Authorize" "identity",
  rule ["cloud_iam"] "dataflow_ing" "Authorize" "identity",
  rule ["cloud_iam"] "pubsub" "Authorize" "identity",
  rule ["cloud_iam"] "cloud_functions" "Authorize" "identity",
  rule ["cloud_iam"] "looker" "RBAC" "identity",
  rule ["cloud_iam"] "cloud_run" "RBAC" "identity",
  rule ["vpc", "vpc_sc"] "datastream" "Perimeter" "identity",
  rule ["vpc", "vpc_sc"] "pubsub" "Perimeter" "identity",
  rule ["cloud_armor"] "cloud_run" "WAF" "identity",
  rule ["cloud_armor"] "apigee" "WAF" "identity",
  rule ["datastream", "cloud_functions", "data_fusion", "dataflow_ing", "pubsub"] "cloud_logging" "Logs" "observe",
  rule ["dataform", "dataflow_proc", "dataproc"] "cloud_logging" "Logs" "observe",
  rule ["looker", "cloud_run", "analytics_hub"] "cloud_monitoring" "Metrics" "observe",
  rule ["dataplex", "dataplex_dq"] "gold" "Quality" "control",
  rule ["cloud_dlp"] "bronze" "PII scan" "control",
  rule ["data_catalog"] "gold" "Lineage" "control"]

/-! ### diagram_builder.py — edge materialization loop of build_diagram -/

/-- One materialized edge of the diagram document. -/
structure DiagEdge where
  id : String
  fromId : String
  toId : String
  label : String
  edgeType : String
  crossesBoundary : Bool
  security : Option SecurityMeta
deriving DecidableEq

/-- Build one output edge, deriving the boundary-crossing flag from the
product zones and copying the rule's security metadata. -/
def mk_edge (eid : Nat) (fid : String) (r : EdgeRule) : DiagEdge :=
  { id := "e" ++ toString eid
    fromId := fid
    toId := r.toId
    label := r.label
    edgeType := r.edgeType
    crossesBoundary :=
      (product_zone fid == "source" && GCP_ZONES.contains (product_zone r.toId))
      || (product_zone r.toId == "consumer")
    security := r.security }

/-- The inner loop of the edge phase: walk the present sources of one rule,
skipping pairs already claimed, threading the seen-pairs set and edge counter. -/
def emit_edges (r : EdgeRule) (froms : List String)
    (seen : List (String × String)) (eid : Nat) :
    List (String × String) × Nat × List DiagEdge :=
  match froms with
  | [] => (seen, eid, [])
  | fid :: rest =>
      if (fid, r.toId) ∈ seen then emit_edges r rest seen eid
      else
        let out := emit_edges r rest ((fid, r.toId) :: seen) (eid + 1)
        (out.1, out.2.1, mk_edge (eid + 1) fid r :: out.2.2)

/-- The outer loop over EDGE_RULES: a rule fires only when its target is
present; the present sources are those of from_any in the node-id set. -/
def run_rules (node_ids : Finset String) :
    List EdgeRule → List (String × String) → Nat → List DiagEdge
  | [], _, _ => []
  | r :: rs, seen, eid =>
      if r.toId ∈ node_ids then
        let out := emit_edges r (r.from_any.filter (fun fid => decide (fid ∈ node_ids))) seen eid
        out.2.2 ++ run_rules node_ids rs out.1 out.2.1
      else run_rules node_ids rs seen eid

/-- The edge list of build_diagram as a function of the placed node-id set. -/
def build_edges (node_ids : Finset String) : List DiagEdge :=
  run_rules node_ids EDGE_RULES [] 0

/-! ### Edge-loop invariants -/

lemma emit_edges_spec (r : EdgeRule) (froms : List String)
    (seen : List (String × String)) (eid : Nat) :
    (∀ p ∈ seen, p ∈ (emit_edges r froms seen eid).1) ∧
    (∀ e ∈ (emit_edges r froms seen eid).2.2,
       e.toId = r.toId ∧ e.fromId ∈ froms ∧ (e.fromId, e.toId) ∉ seen ∧
       (e.fromId, e.toId) ∈ (emit_edges r froms seen eid).1) ∧
    ((emit_edges r froms seen eid).2.2.map (fun e => (e.fromId, e.toId))).Nodup := by
  induction froms generalizing seen eid with
  | nil => simp [emit_edges]
  | cons fid rest ih =>
    by_cases hmem : (fid, r.toId) ∈ seen
    · have h := ih seen eid
      simp only [emit_edges, if_pos hmem]
      refine ⟨h.1, fun e he => ?_, h.2.2⟩
      have := h.2.1 e he
      exact ⟨this.1, List.mem_cons_of_mem _ this.2.1, this.2.2.1, this.2.2.2⟩
    · have h := ih ((fid, r.toId) :: seen) (eid + 1)
      simp only [emit_edges, if_neg hmem]
      refine ⟨?_, ?_, ?_⟩
      · intro p hp
        exact h.1 p (List.mem_cons_of_mem _ hp)
      · intro e he
        rcases List.mem_cons.1 he with he | he
        · subst he
          refine ⟨rfl, List.mem_cons_self _ _, hmem, ?_⟩
          exact h.1 _ (List.mem_cons_self _ _)
        · have := h.2.1 e he
          refine ⟨this.1, List.mem_cons_of_mem _ this.2.1, ?_, this.2.2.2⟩
          intro hc
          exact this.2.2.1 (List.mem_cons_of_mem _ hc)
      · simp only [List.map_cons, List.nodup_cons]
        refine ⟨?_, h.2.2⟩
        intro hc
        rcases List.mem_map.1 hc with ⟨e, he, hpe⟩
        have := (h.2.1 e he).2.2.1
        apply this
        rw [mk_edge] at hpe
        simp only at hpe
        rw [← hpe]
        exact List.mem_cons_self _ _

lemma run_rules_spec (node_ids : Finset String) (rules : List EdgeRule)
    (seen : List (String × String)) (eid : Nat) :
    (∀ e ∈ run_rules node_ids rules seen eid,
       e.fromId ∈ node_ids ∧ e.toId ∈ node_ids ∧ (e.fromId, e.toId) ∉ seen) ∧
    ((run_rules node_ids rules seen eid).map (fun e => (e.fromId, e.toId))).Nodup := by
  induction rules generalizing seen eid with
  | nil => simp [run_rules]
  | cons r rs ih =>
    by_cases hto : r.toId ∈ node_ids
    · simp only [run_rules, if_pos hto]
      have hemit := emit_edges_spec r
        (r.from_any.filter (fun fid => decide (fid ∈ node_ids))) seen eid
      have hrec := ih (emit_edges r (r.from_any.filter (fun fid => decide (fid ∈ node_ids))) seen eid).1
        (emit_edges r (r.from_any.filter (fun fid => decide (fid ∈ node_ids))) seen eid).2.1
      constructor
      · intro e he
        rcases List.mem_append.1 he with he | he
        · have h := hemit.2.1 e he
          have hfrom : e.fromId ∈ node_ids := by
            have := List.mem_filter.1 h.2.1
            exact of_decide_eq_true this.2
          exact ⟨hfrom, h.1 ▸ hto, h.2.2.1⟩
        · have h := hrec.1 e he
          refine ⟨h.1, h.2.1, ?_⟩
          intro hc
          exact h.2.2 (hemit.1 _ hc)
      · rw [List.map_append]
        rw [List.nodup_append]
        refine ⟨hemit.2.2, hrec.2, ?_⟩
        intro p hp1 hp2
        rcases List.mem_map.1 hp1 with ⟨e1, he1, hpe1⟩
        rcases List.mem_map.1 hp2 with ⟨e2, he2, hpe2⟩
        have hin : p ∈ (emit_edges r (r.from_any.filter (fun fid => decide (fid ∈ node_ids))) seen eid).1 := by
          rw [← hpe1]
          exact (hemit.2.1 e1 he1).2.2.2
        have hout := (hrec.1 e2 he2).2.2
        rw [hpe2] at hout
        exact hout hin
    · simp only [run_rules, if_neg hto]
      exact ih seen eid

/-! ### C2 — edge gating -/

/-- C2: an edge is materialized exactly when both endpoints are selected:
get_edges_for returns precisely the table edges with both endpoints in the
keep set, and every edge emitted by the build_diagram edge loop has both
endpoints among the resolved node ids. -/
theorem edge_gating :
    (∀ (S : Finset String) (e : BPEdge),
        e ∈ get_edges_for S ↔ e ∈ EDGES ∧ e.fromId ∈ S ∧ e.toId ∈ S) ∧
    (∀ (S : Finset String) (e : DiagEdge),
        e ∈ build_edges S → e.fromId ∈ S ∧ e.toId ∈ S) := by
  constructor
  · intro S e
    simp [get_edges_for, List.mem_filter]
  · intro S e he
    have h := (run_rules_spec S EDGE_RULES [] 0).1 e he
    exact ⟨h.1, h.2.1⟩

theorem edge_gating_witness :
    (bpe "gold" "serve_looker" "governed BI" "data" ∈
        get_edges_for {"gold", "serve_looker"}) ∧
    ("gold" : String) ∈ ({"gold", "looker"} : Finset String) := by
  constructor
  · exact (edge_gating.1 {"gold", "serve_looker"} (bpe "gold" "serve_looker" "governed BI" "data")).mpr
      (by decide)
  · have hmem : (mk_edge 1 "gold" (rule ["gold"] "looker" "Governed BI" "data"))
        ∈ build_edges {"gold", "looker"} := by decide
    exact (edge_gating.2 {"gold", "looker"} _ hmem).1

/-! ### C6 — edge deduplication -/

/-- C6: in the edge list produced by the build_diagram edge loop, no
(from, to) pair appears more than once — the seen-pairs set filters every
repeat, whichever rules would produce it. -/
theorem edge_pairs_nodup (node_ids : Finset String) :
    ((build_edges node_ids).map (fun e => (e.fromId, e.toId))).Nodup :=
  (run_rules_spec node_ids EDGE_RULES [] 0).2

/-! ### C9 — Oracle CDC scenario -/

/-- C9: for the prompt "Oracle CDC to BigQuery", the base set contains the
Oracle source, the closure set contains the VPN node and the CDC ingestion
node, and the diagram's edge list contains a data edge from the resolved
Oracle node to the resolved Datastream node. -/
theorem oracle_cdc_scenario :
    "src_oracle" ∈ classify_sources "Oracle CDC to BigQuery" ∧
    "conn_vpn" ∈ route_keep "Oracle CDC to BigQuery" ∧
    "ing_datastream" ∈ route_keep "Oracle CDC to BigQuery" ∧
    (∃ e ∈ build_edges (resolve_keep_set (route_keep "Oracle CDC to BigQuery")),
        e.fromId = "oracle_db" ∧ e.toId = "datastream" ∧ e.edgeType = "data") := by
  refine ⟨by decide, by decide, by decide, by decide⟩

/-! ### diagram_builder.py — zone-grid-first layout geometry

Grid constants and the Phase-1 zone-rectangle computation of build_diagram,
as a function of the per-zone node counts (the rectangles depend on the
selection only through these counts). -/

def GAP : Int := 40
def GCP_PAD : Int := 25
def GCP_LABEL : Int := 36
def ZONE_PAD : Int := 36
def LABEL_H : Int := 28
def NODE_W : Int := 82
def H_SPACE : Int := 150
def V_SPACE : Int := 140
def COL_L_W : Int := 180
def COL_C_W : Int := 480
def COL_R_W : Int := 300
def OUTSIDE_W : Int := 180
def OUTSIDE_X : Int := 30
def GCP_X : Int := OUTSIDE_X + OUTSIDE_W + GAP
def COL_L_X : Int := GCP_X + GCP_PAD
def COL_C_X : Int := COL_L_X + COL_L_W + GAP
def COL_R_X : Int := COL_C_X + COL_C_W + GAP
def GCP_W : Int := (COL_R_X + COL_R_W + GCP_PAD) - GCP_X

/-- `_zone_h`: height of a zone rect holding `count` nodes in a ceiling-division
grid of `max_cols` columns. -/
def zone_h (count max_cols : Nat) : Int :=
  if count = 0 then 0
  else LABEL_H + ZONE_PAD + (((count + max_cols - 1) / max_cols - 1 : Nat) : Int) * V_SPACE
       + NODE_W + ZONE_PAD

/-- `_section_h`: height of a raw node section (no label/padding overhead). -/
def section_h (count max_cols : Nat) : Int :=
  if count = 0 then 0
  else (((count + max_cols - 1) / max_cols - 1 : Nat) : Int) * V_SPACE + NODE_W

/-- `_zone_w`: width of a zone rect for `count` nodes. -/
def zone_w (count max_cols : Nat) (h_space : Int) : Int :=
  if count = 0 then 0
  else 2 * ZONE_PAD + ((min count max_cols - 1 : Nat) : Int) * h_space + NODE_W

/-- The per-zone node counts build_diagram derives from the resolved selection
(`_n(z)` for each zone bucket). -/
structure ZoneCounts where
  consumer : Nat
  ext_id : Nat
  source : Nat
  security : Nat
  serving : Nat
  orch : Nat
  obs : Nat
  governance : Nat
  medallion : Nat
  processing : Nat
  landing : Nat
  ingestion : Nat
  ext_log : Nat
  ext_alert : Nat
deriving DecidableEq

def h_security (c : ZoneCounts) : Int := zone_h c.security 1
def h_governance (c : ZoneCounts) : Int := zone_h c.governance 1
def h_serving (c : ZoneCounts) : Int := zone_h c.serving 2
def h_medallion_z (c : ZoneCounts) : Int := zone_h c.medallion 3
def h_processing (c : ZoneCounts) : Int := section_h c.processing 2
def h_landing (c : ZoneCounts) : Int := section_h c.landing 2
def h_ingestion (c : ZoneCounts) : Int := section_h c.ingestion 2

/-- Column height: positive member zone heights plus one GAP between each
adjacent pair (`sum(parts) + max(0, len(parts) - 1) * GAP`). -/
def stack_h (hs : List Int) : Int :=
  (hs.filter (fun v => decide (0 < v))).sum
  + max 0 (((hs.filter (fun v => decide (0 < v))).length : Int) - 1) * GAP

/-- The positive pipeline section heights, in stacking order. -/
def pipe_sections (c : ZoneCounts) : List Int :=
  [h_medallion_z c, h_processing c, h_landing c, h_ingestion c].filter (fun v => decide (0 < v))

def h_pipeline (c : ZoneCounts) : Int :=
  if pipe_sections c = [] then 0
  else LABEL_H + ZONE_PAD + (pipe_sections c).sum
       + max 0 (((pipe_sections c).length : Int) - 1) * GAP + ZONE_PAD

def col_l_h (c : ZoneCounts) : Int := stack_h [h_security c, h_governance c]
def col_c_h (c : ZoneCounts) : Int := stack_h [h_serving c, h_pipeline c]
def h_orch (c : ZoneCounts) : Int := zone_h c.orch 2
def h_obs (c : ZoneCounts) : Int := zone_h c.obs 2
def col_r_h (c : ZoneCounts) : Int := stack_h [h_obs c, h_orch c]

/-- `has_gcp = any(_n(z) > 0 for z in GCP_ZONES)`. -/
def has_gcp (c : ZoneCounts) : Prop :=
  0 < c.security ∨ 0 < c.ingestion ∨ 0 < c.landing ∨ 0 < c.processing ∨
  0 < c.medallion ∨ 0 < c.serving ∨ 0 < c.orch ∨ 0 < c.obs ∨ 0 < c.governance

instance (c : ZoneCounts) : Decidable (has_gcp c) := by
  unfold has_gcp; infer_instance

def gcp_inner_h (c : ZoneCounts) : Int :=
  max (max (max (col_l_h c) (col_c_h c)) (col_r_h c)) 0

def gcp_h (c : ZoneCounts) : Int :=
  if has_gcp c then GCP_PAD + GCP_LABEL + gcp_inner_h c + GCP_PAD else 0

def h_consumer (c : ZoneCounts) : Int := zone_h c.consumer 4

def con_w (c : ZoneCounts) : Int :=
  if 0 < c.consumer then max (zone_w c.consumer 4 H_SPACE) 200 else 0

def consumer_y : Int := 80

def consumer_x (c : ZoneCounts) : Int :=
  if 0 < c.consumer then GCP_X + (GCP_W - con_w c) / 2 else 0

def gcp_y (c : ZoneCounts) : Int :=
  if 0 < c.consumer then consumer_y + h_consumer c + GAP else 80

def gcp_inner_top (c : ZoneCounts) : Int := gcp_y c + GCP_PAD + GCP_LABEL

def pipe_y (c : ZoneCounts) : Int :=
  gcp_inner_top c + (if 0 < c.serving then h_serving c + GAP else 0)

def h_ext_id (c : ZoneCounts) : Int := zone_h c.ext_id 1
def h_source (c : ZoneCounts) : Int := zone_h c.source 1

def ext_y (c : ZoneCounts) : Int :=
  if has_gcp c then gcp_y c + gcp_h c + GAP else gcp_y c + GAP

def elw (c : ZoneCounts) : Int := max (zone_w c.ext_log 2 H_SPACE) 200
def eaw (c : ZoneCounts) : Int := max (zone_w c.ext_alert 2 H_SPACE) 200

/-- An output zone rectangle. -/
structure Rect where
  x : Int
  y : Int
  w : Int
  h : Int
deriving DecidableEq

/-- Two rectangles share no point (strict separation on one axis). -/
def Rect.Disjoint (a b : Rect) : Prop :=
  a.x + a.w < b.x ∨ b.x + b.w < a.x ∨ a.y + a.h < b.y ∨ b.y + b.h < a.y

lemma Rect.Disjoint.symm {a b : Rect} (h : Rect.Disjoint a b) : Rect.Disjoint b a := by
  unfold Rect.Disjoint at *
  tauto

/-- The zones of ZONE_DEFS (only those that can receive a rectangle). -/
inductive ZoneId where
  | consumer
  | extIdentity
  | source
  | gcp
  | gcpSecurity
  | serving
  | orchestration
  | dataPipeline
  | gcpObs
  | governance
  | medallion
  | extLog
  | extAlert
deriving DecidableEq

/-- Nesting parent of each zone, from ZONE_DEFS. -/
def zone_parent : ZoneId → Option ZoneId
  | .gcpSecurity => some .gcp
  | .serving => some .gcp
  | .orchestration => some .gcp
  | .dataPipeline => some .gcp
  | .gcpObs => some .gcp
  | .governance => some .gcp
  | .medallion => some .dataPipeline
  | _ => none

/-- Phase 1 of build_diagram: the zone rectangle of each zone (none when the
zone holds no node and is omitted). -/
def zone_rect (c : ZoneCounts) : ZoneId → Option Rect
  | .consumer =>
      if 0 < c.consumer then some ⟨consumer_x c, consumer_y, con_w c, h_consumer c⟩ else none
  | .extIdentity =>
      if 0 < c.ext_id then some ⟨OUTSIDE_X, gcp_y c, OUTSIDE_W, h_ext_id c⟩ else none
  | .source =>
      if 0 < c.source then
        some ⟨OUTSIDE_X, gcp_y c + (if 0 < c.ext_id then h_ext_id c + GAP else 0),
              OUTSIDE_W, h_source c⟩
      else none
  | .gcp =>
      if has_gcp c then some ⟨GCP_X, gcp_y c, GCP_W, gcp_h c⟩ else none
  | .gcpSecurity =>
      if 0 < c.security then some ⟨COL_L_X, gcp_inner_top c, COL_L_W, h_security c⟩ else none
  | .governance =>
      if 0 < c.governance then
        some ⟨COL_L_X, gcp_inner_top c + (if 0 < c.security then h_security c + GAP else 0),
              COL_L_W, h_governance c⟩
      else none
  | .serving =>
      if 0 < c.serving then some ⟨COL_C_X, gcp_inner_top c, COL_C_W, h_serving c⟩ else none
  | .dataPipeline =>
      if 0 < h_pipeline c then some ⟨COL_C_X, pipe_y c, COL_C_W, h_pipeline c⟩ else none
  | .medallion =>
      if 0 < h_pipeline c then
        if 0 < c.medallion then
          some ⟨COL_C_X + ZONE_PAD / 2, pipe_y c + LABEL_H + ZONE_PAD,
                COL_C_W - ZONE_PAD, h_medallion_z c⟩
        else none
      else none
  | .gcpObs =>
      if 0 < c.obs then some ⟨COL_R_X, gcp_inner_top c, COL_R_W, h_obs c⟩ else none
  | .orchestration =>
      if 0 < c.orch then
        some ⟨COL_R_X, gcp_inner_top c + (if 0 < c.obs then h_obs c + GAP else 0),
              COL_R_W, h_orch c⟩
      else none
  | .extLog =>
      if 0 < c.ext_log then some ⟨GCP_X, ext_y c, elw c, zone_h c.ext_log 2⟩ else none
  | .extAlert =>
      if 0 < c.ext_alert then
        some ⟨(if 0 < c.ext_log then GCP_X + elw c + GAP else GCP_X), ext_y c,
              eaw c, zone_h c.ext_alert 2⟩
      else none

/-! ### Geometry bounds -/

lemma gcp_inner_h_nonneg (c : ZoneCounts) : 0 ≤ gcp_inner_h c :=
  le_max_right _ _

lemma gcp_h_nonneg (c : ZoneCounts) : 0 ≤ gcp_h c := by
  have h := gcp_inner_h_nonneg c
  unfold gcp_h GCP_PAD GCP_LABEL
  split_ifs <;> omega

lemma zone_w_consumer_le (c : ZoneCounts) : zone_w c.consumer 4 H_SPACE ≤ 604 := by
  unfold zone_w ZONE_PAD NODE_W H_SPACE
  split_ifs <;> omega

lemma con_w_le (c : ZoneCounts) : con_w c ≤ 604 := by
  unfold con_w
  split_ifs
  · exact max_le (zone_w_consumer_le c) (by norm_num)
  · norm_num

lemma elw_ge (c : ZoneCounts) : 200 ≤ elw c :=
  le_max_right _ _

/-! ### Pairwise sibling disjointness -/

lemma disj_security_governance (c : ZoneCounts) (r1 r2 : Rect)
    (h1 : zone_rect c .gcpSecurity = some r1) (h2 : zone_rect c .governance = some r2) :
    Rect.Disjoint r1 r2 := by
  simp only [zone_rect] at h1 h2
  split_ifs at h1 h2 <;> injection h1 with h1 <;> injection h2 with h2 <;> subst h1 <;> subst h2
  all_goals simp only [Rect.Disjoint, gcp_y, gcp_inner_top, pipe_y, consumer_x, ext_y,
    consumer_y, GAP, GCP_PAD, GCP_LABEL, LABEL_H, ZONE_PAD, NODE_W, H_SPACE, V_SPACE,
    COL_L_W, COL_C_W, COL_R_W, OUTSIDE_W, OUTSIDE_X, GCP_X, COL_L_X, COL_C_X, COL_R_X, GCP_W]
  all_goals first
    | (split_ifs <;> first | omega | tauto)
    | omega
    | tauto

lemma disj_security_serving (c : ZoneCounts) (r1 r2 : Rect)
    (h1 : zone_rect c .gcpSecurity = some r1) (h2 : zone_rect c .serving = some r2) :
    Rect.Disjoint r1 r2 := by
  simp only [zone_rect] at h1 h2
  split_ifs at h1 h2 <;> injection h1 with h1 <;> injection h2 with h2 <;> subst h1 <;> subst h2
  all_goals simp only [Rect.Disjoint, gcp_y, gcp_inner_top, pipe_y, consumer_x, ext_y,
    consumer_y, GAP, GCP_PAD, GCP_LABEL, LABEL_H, ZONE_PAD, NODE_W, H_SPACE, V_SPACE,
    COL_L_W, COL_C_W, COL_R_W, OUTSIDE_W, OUTSIDE_X, GCP_X, COL_L_X, COL_C_X, COL_R_X, GCP_W]
  all_goals first
    | (split_ifs <;> first | omega | tauto)
    | omega
    | tauto

lemma disj_consumer_extIdentity (c : ZoneCounts) (r1 r2 : Rect)
    (h1 : zone_rect c .consumer = some r1) (h2 : zone_rect c .extIdentity = some r2) :
    Rect.Disjoint r1 r2 := by
  have F3 := con_w_le c
  simp only [zone_rect] at h1 h2
  split_ifs at h1 h2 <;> injection h1 with h1 <;> injection h2 with h2 <;> subst h1 <;> subst h2
  all_goals simp only [Rect.Disjoint, gcp_y, gcp_inner_top, pipe_y, consumer_x, ext_y,
    consumer_y, GAP, GCP_PAD, GCP_LABEL, LABEL_H, ZONE_PAD, NODE_W, H_SPACE, V_SPACE,
    COL_L_W, COL_C_W, COL_R_W, OUTSIDE_W, OUTSIDE_X, GCP_X, COL_L_X, COL_C_X, COL_R_X, GCP_W]
  all_goals first
    | (split_ifs <;> first | omega | tauto)
    | omega
    | tauto

lemma disj_consumer_extLog (c : ZoneCounts) (r1 r2 : Rect)
    (h1 : zone_rect c .consumer = some r1) (h2 : zone_rect c .extLog = some r2) :
    Rect.Disjoint r1 r2 := by
  have F2 := gcp_h_nonneg c
  simp only [zone_rect] at h1 h2
  split_ifs at h1 h2 <;> injection h1 with h1 <;> injection h2 with h2 <;> subst h1 <;> subst h2
  all_goals simp only [Rect.Disjoint, gcp_y, gcp_inner_top, pipe_y, consumer_x, ext_y,
    consumer_y, GAP, GCP_PAD, GCP_LABEL, LABEL_H, ZONE_PAD, NODE_W, H_SPACE, V_SPACE,
    COL_L_W, COL_C_W, COL_R_W, OUTSIDE_W, OUTSIDE_X, GCP_X, COL_L_X, COL_C_X, COL_R_X, GCP_W]
  all_goals first
    | (split_ifs <;> first | omega | tauto)
    | omega
    | tauto

lemma disj_consumer_source (c : ZoneCounts) (r1 r2 : Rect)
    (h1 : zone_rect c .consumer = some r1) (h2 : zone_rect c .source = some r2) :
    Rect.Disjoint r1 r2 := by
  have F3 := con_w_le c
  simp only [zone_rect] at h1 h2
  split_ifs at h1 h2 <;> injection h1 with h1 <;> injection h2 with h2 <;> subst h1 <;> subst h2
  all_goals simp only [Rect.Disjoint, gcp_y, gcp_inner_top, pipe_y, consumer_x, ext_y,
    consumer_y, GAP, GCP_PAD, GCP_LABEL, LABEL_H, ZONE_PAD, NODE_W, H_SPACE, V_SPACE,
    COL_L_W, COL_C_W, COL_R_W, OUTSIDE_W, OUTSIDE_X, GCP_X, COL_L_X, COL_C_X, COL_R_X, GCP_W]
  all_goals first
    | (split_ifs <;> first | omega | tauto)
    | omega
    | tauto

lemma disj_consumer_gcp (c : ZoneCounts) (r1 r2 : Rect)
    (h1 : zone_rect c .consumer = some r1) (h2 : zone_rect c .gcp = some r2) :
    Rect.Disjoint r1 r2 := by
  simp only [zone_rect] at h1 h2
  split_ifs at h1 h2 <;> injection h1 with h1 <;> injection h2 with h2 <;> subst h1 <;> subst h2
  all_goals simp only [Rect.Disjoint, gcp_y, gcp_inner_top, pipe_y, consumer_x, ext_y,
    consumer_y, GAP, GCP_PAD, GCP_LABEL, LABEL_H, ZONE_PAD, NODE_W, H_SPACE, V_SPACE,
    COL_L_W, COL_C_W, COL_R_W, OUTSIDE_W, OUTSIDE_X, GCP_X, COL_L_X, COL_C_X, COL_R_X, GCP_W]
  all_goals first
    | (split_ifs <;> first | omega | tauto)
    | omega
    | tauto

lemma disj_consumer_extAlert (c : ZoneCounts) (r1 r2 : Rect)
    (h1 : zone_rect c .consumer = some r1) (h2 : zone_rect c .extAlert = some r2) :
    Rect.Disjoint r1 r2 := by
  have F2 := gcp_h_nonneg c
  simp only [zone_rect] at h1 h2
  split_ifs at h1 h2 <;> injection h1 with h1 <;> injection h2 with h2 <;> subst h1 <;> subst h2
  all_goals simp only [Rect.Disjoint, gcp_y, gcp_inner_top, pipe_y, consumer_x, ext_y,
    consumer_y, GAP, GCP_PAD, GCP_LABEL, LABEL_H, ZONE_PAD, NODE_W, H_SPACE, V_SPACE,
    COL_L_W, COL_C_W, COL_R_W, OUTSIDE_W, OUTSIDE_X, GCP_X, COL_L_X, COL_C_X, COL_R_X, GCP_W]
  all_goals first
    | (split_ifs <;> first | omega | tauto)
    | omega
    | tauto

lemma disj_extIdentity_source (c : ZoneCounts) (r1 r2 : Rect)
    (h1 : zone_rect c .extIdentity = some r1) (h2 : zone_rect c .source = some r2) :
    Rect.Disjoint r1 r2 := by
  simp only [zone_rect] at h1 h2
  split_ifs at h1 h2 <;> injection h1 with h1 <;> injection h2 with h2 <;> subst h1 <;> subst h2
  all_goals simp only [Rect.Disjoint, gcp_y, gcp_inner_top, pipe_y, consumer_x, ext_y,
    consumer_y, GAP, GCP_PAD, GCP_LABEL, LABEL_H, ZONE_PAD, NODE_W, H_SPACE, V_SPACE,
    COL_L_W, COL_C_W, COL_R_W, OUTSIDE_W, OUTSIDE_X, GCP_X, COL_L_X, COL_C_X, COL_R_X, GCP_W]
  all_goals first
    | (split_ifs <;> first | omega | tauto)
    | omega
    | tauto

lemma disj_extIdentity_gcp (c : ZoneCounts) (r1 r2 : Rect)
    (h1 : zone_rect c .extIdentity = some r1) (h2 : zone_rect c .gcp = some r2) :
    Rect.Disjoint r1 r2 := by
  simp only [zone_rect] at h1 h2
  split_ifs at h1 h2 <;> injection h1 with h1 <;> injection h2 with h2 <;> subst h1 <;> subst h2
  all_goals simp only [Rect.Disjoint, gcp_y, gcp_inner_top, pipe_y, consumer_x, ext_y,
    consumer_y, GAP, GCP_PAD, GCP_LABEL, LABEL_H, ZONE_PAD, NODE_W, H_SPACE, V_SPACE,
    COL_L_W, COL_C_W, COL_R_W, OUTSIDE_W, OUTSIDE_X, GCP_X, COL_L_X, COL_C_X, COL_R_X, GCP_W]
  all_goals first
    | (split_ifs <;> first | omega | tauto)
    | omega
    | tauto

lemma disj_extIdentity_extLog (c : ZoneCounts) (r1 r2 : Rect)
    (h1 : zone_rect c .extIdentity = some r1) (h2 : zone_rect c .extLog = some r2) :
    Rect.Disjoint r1 r2 := by
  simp only [zone_rect] at h1 h2
  split_ifs at h1 h2 <;> injection h1 with h1 <;> injection h2 with h2 <;> subst h1 <;> subst h2
  all_goals simp only [Rect.Disjoint, gcp_y, gcp_inner_top, pipe_y, consumer_x, ext_y,
    consumer_y, GAP, GCP_PAD, GCP_LABEL, LABEL_H, ZONE_PAD, NODE_W, H_SPACE, V_SPACE,
    COL_L_W, COL_C_W, COL_R_W, OUTSIDE_W, OUTSIDE_X, GCP_X, COL_L_X, COL_C_X, COL_R_X, GCP_W]
  all_goals first
    | (split_ifs <;> first | omega | tauto)
    | omega
    | tauto

lemma disj_extIdentity_extAlert (c : ZoneCounts) (r1 r2 : Rect)
    (h1 : zone_rect c .extIdentity = some r1) (h2 : zone_rect c .extAlert = some r2) :
    Rect.Disjoint r1 r2 := by
  have F5 := elw_ge c
  simp only [zone_rect] at h1 h2
  split_ifs at h1 h2 <;> injection h1 with h1 <;> injection h2 with h2 <;> subst h1 <;> subst h2
  all_goals simp only [Rect.Disjoint, gcp_y, gcp_inner_top, pipe_y, consumer_x, ext_y,
    consumer_y, GAP, GCP_PAD, GCP_LABEL, LABEL_H, ZONE_PAD, NODE_W, H_SPACE, V_SPACE,
    COL_L_W, COL_C_W, COL_R_W, OUTSIDE_W, OUTSIDE_X, GCP_X, COL_L_X, COL_C_X, COL_R_X, GCP_W]
  all_goals first
    | (split_ifs <;> first | omega | tauto)
    | omega
    | tauto

lemma disj_source_gcp (c : ZoneCounts) (r1 r2 : Rect)
    (h1 : zone_rect c .source = some r1) (h2 : zone_rect c .gcp = some r2) :
    Rect.Disjoint r1 r2 := by
  simp only [zone_rect] at h1 h2
  split_ifs at h1 h2 <;> injection h1 with h1 <;> injection h2 with h2 <;> subst h1 <;> subst h2
  all_goals simp only [Rect.Disjoint, gcp_y, gcp_inner_top, pipe_y, consumer_x, ext_y,
    consumer_y, GAP, GCP_PAD, GCP_LABEL, LABEL_H, ZONE_PAD, NODE_W, H_SPACE, V_SPACE,
    COL_L_W, COL_C_W, COL_R_W, OUTSIDE_W, OUTSIDE_X, GCP_X, COL_L_X, COL_C_X, COL_R_X, GCP_W]
  all_goals first
    | (split_ifs <;> first | omega | tauto)
    | omega
    | tauto

lemma disj_source_extLog (c : ZoneCounts) (r1 r2 : Rect)
    (h1 : zone_rect c .source = some r1) (h2 : zone_rect c .extLog = some r2) :
    Rect.Disjoint r1 r2 := by
  simp only [zone_rect] at h1 h2
  split_ifs at h1 h2 <;> injection h1 with h1 <;> injection h2 with h2 <;> subst h1 <;> subst h2
  all_goals simp only [Rect.Disjoint, gcp_y, gcp_inner_top, pipe_y, consumer_x, ext_y,
    consumer_y, GAP, GCP_PAD, GCP_LABEL, LABEL_H, ZONE_PAD, NODE_W, H_SPACE, V_SPACE,
    COL_L_W, COL_C_W, COL_R_W, OUTSIDE_W, OUTSIDE_X, GCP_X, COL_L_X, COL_C_X, COL_R_X, GCP_W]
  all_goals first
    | (split_ifs <;> first | omega | tauto)
    | omega
    | tauto

lemma disj_source_extAlert (c : ZoneCounts) (r1 r2 : Rect)
    (h1 : zone_rect c .source = some r1) (h2 : zone_rect c .extAlert = some r2) :
    Rect.Disjoint r1 r2 := by
  have F5 := elw_ge c
  simp only [zone_rect] at h1 h2
  split_ifs at h1 h2 <;> injection h1 with h1 <;> injection h2 with h2 <;> subst h1 <;> subst h2
  all_goals simp only [Rect.Disjoint, gcp_y, gcp_inner_top, pipe_y, consumer_x, ext_y,
    consumer_y, GAP, GCP_PAD, GCP_LABEL, LABEL_H, ZONE_PAD, NODE_W, H_SPACE, V_SPACE,
    COL_L_W, COL_C_W, COL_R_W, OUTSIDE_W, OUTSIDE_X, GCP_X, COL_L_X, COL_C_X, COL_R_X, GCP_W]
  all_goals first
    | (split_ifs <;> first | omega | tauto)
    | omega
    | tauto

lemma disj_gcp_extLog (c : ZoneCounts) (r1 r2 : Rect)
    (h1 : zone_rect c .gcp = some r1) (h2 : zone_rect c .extLog = some r2) :
    Rect.Disjoint r1 r2 := by
  simp only [zone_rect] at h1 h2
  split_ifs at h1 h2 <;> injection h1 with h1 <;> injection h2 with h2 <;> subst h1 <;> subst h2
  all_goals simp only [Rect.Disjoint, gcp_y, gcp_inner_top, pipe_y, consumer_x, ext_y,
    consumer_y, GAP, GCP_PAD, GCP_LABEL, LABEL_H, ZONE_PAD, NODE_W, H_SPACE, V_SPACE,
    COL_L_W, COL_C_W, COL_R_W, OUTSIDE_W, OUTSIDE_X, GCP_X, COL_L_X, COL_C_X, COL_R_X, GCP_W]
  all_goals first
    | (split_ifs <;> first | omega | tauto)
    | omega
    | tauto

lemma disj_gcp_extAlert (c : ZoneCounts) (r1 r2 : Rect)
    (h1 : zone_rect c .gcp = some r1) (h2 : zone_rect c .extAlert = some r2) :
    Rect.Disjoint r1 r2 := by
  simp only [zone_rect] at h1 h2
  split_ifs at h1 h2 <;> injection h1 with h1 <;> injection h2 with h2 <;> subst h1 <;> subst h2
  all_goals simp only [Rect.Disjoint, gcp_y, gcp_inner_top, pipe_y, consumer_x, ext_y,
    consumer_y, GAP, GCP_PAD, GCP_LABEL, LABEL_H, ZONE_PAD, NODE_W, H_SPACE, V_SPACE,
    COL_L_W, COL_C_W, COL_R_W, OUTSIDE_W, OUTSIDE_X, GCP_X, COL_L_X, COL_C_X, COL_R_X, GCP_W]
  all_goals first
    | (split_ifs <;> first | omega | tauto)
    | omega
    | tauto

lemma disj_extLog_extAlert (c : ZoneCounts) (r1 r2 : Rect)
    (h1 : zone_rect c .extLog = some r1) (h2 : zone_rect c .extAlert = some r2) :
    Rect.Disjoint r1 r2 := by
  simp only [zone_rect] at h1 h2
  split_ifs at h1 h2 <;> injection h1 with h1 <;> injection h2 with h2 <;> subst h1 <;> subst h2
  all_goals simp only [Rect.Disjoint, gcp_y, gcp_inner_top, pipe_y, consumer_x, ext_y,
    consumer_y, GAP, GCP_PAD, GCP_LABEL, LABEL_H, ZONE_PAD, NODE_W, H_SPACE, V_SPACE,
    COL_L_W, COL_C_W, COL_R_W, OUTSIDE_W, OUTSIDE_X, GCP_X, COL_L_X, COL_C_X, COL_R_X, GCP_W]
  all_goals first
    | (split_ifs <;> first | omega | tauto)
    | omega
    | tauto

lemma disj_security_orchestration (c : ZoneCounts) (r1 r2 : Rect)
    (h1 : zone_rect c .gcpSecurity = some r1) (h2 : zone_rect c .orchestration = some r2) :
    Rect.Disjoint r1 r2 := by
  simp only [zone_rect] at h1 h2
  split_ifs at h1 h2 <;> injection h1 with h1 <;> injection h2 with h2 <;> subst h1 <;> subst h2
  all_goals simp only [Rect.Disjoint, gcp_y, gcp_inner_top, pipe_y, consumer_x, ext_y,
    consumer_y, GAP, GCP_PAD, GCP_LABEL, LABEL_H, ZONE_PAD, NODE_W, H_SPACE, V_SPACE,
    COL_L_W, COL_C_W, COL_R_W, OUTSIDE_W, OUTSIDE_X, GCP_X, COL_L_X, COL_C_X, COL_R_X, GCP_W]
  all_goals first
    | (split_ifs <;> first | omega | tauto)
    | omega
    | tauto

lemma disj_security_dataPipeline (c : ZoneCounts) (r1 r2 : Rect)
    (h1 : zone_rect c .gcpSecurity = some r1) (h2 : zone_rect c .dataPipeline = some r2) :
    Rect.Disjoint r1 r2 := by
  simp only [zone_rect] at h1 h2
  split_ifs at h1 h2 <;> injection h1 with h1 <;> injection h2 with h2 <;> subst h1 <;> subst h2
  all_goals simp only [Rect.Disjoint, gcp_y, gcp_inner_top, pipe_y, consumer_x, ext_y,
    consumer_y, GAP, GCP_PAD, GCP_LABEL, LABEL_H, ZONE_PAD, NODE_W, H_SPACE, V_SPACE,
    COL_L_W, COL_C_W, COL_R_W, OUTSIDE_W, OUTSIDE_X, GCP_X, COL_L_X, COL_C_X, COL_R_X, GCP_W]
  all_goals first
    | (split_ifs <;> first | omega | tauto)
    | omega
    | tauto

lemma disj_security_gcpObs (c : ZoneCounts) (r1 r2 : Rect)
    (h1 : zone_rect c .gcpSecurity = some r1) (h2 : zone_rect c .gcpObs = some r2) :
    Rect.Disjoint r1 r2 := by
  simp only [zone_rect] at h1 h2
  split_ifs at h1 h2 <;> injection h1 with h1 <;> injection h2 with h2 <;> subst h1 <;> subst h2
  all_goals simp only [Rect.Disjoint, gcp_y, gcp_inner_top, pipe_y, consumer_x, ext_y,
    consumer_y, GAP, GCP_PAD, GCP_LABEL, LABEL_H, ZONE_PAD, NODE_W, H_SPACE, V_SPACE,
    COL_L_W, COL_C_W, COL_R_W, OUTSIDE_W, OUTSIDE_X, GCP_X, COL_L_X, COL_C_X, COL_R_X, GCP_W]
  all_goals first
    | (split_ifs <;> first | omega | tauto)
    | omega
    | tauto

lemma disj_serving_orchestration (c : ZoneCounts) (r1 r2 : Rect)
    (h1 : zone_rect c .serving = some r1) (h2 : zone_rect c .orchestration = some r2) :
    Rect.Disjoint r1 r2 := by
  simp only [zone_rect] at h1 h2
  split_ifs at h1 h2 <;> injection h1 with h1 <;> injection h2 with h2 <;> subst h1 <;> subst h2
  all_goals simp only [Rect.Disjoint, gcp_y, gcp_inner_top, pipe_y, consumer_x, ext_y,
    consumer_y, GAP, GCP_PAD, GCP_LABEL, LABEL_H, ZONE_PAD, NODE_W, H_SPACE, V_SPACE,
    COL_L_W, COL_C_W, COL_R_W, OUTSIDE_W, OUTSIDE_X, GCP_X, COL_L_X, COL_C_X, COL_R_X, GCP_W]
  all_goals first
    | (split_ifs <;> first | omega | tauto)
    | omega
    | tauto

lemma disj_serving_dataPipeline (c : ZoneCounts) (r1 r2 : Rect)
    (h1 : zone_rect c .serving = some r1) (h2 : zone_rect c .dataPipeline = some r2) :
    Rect.Disjoint r1 r2 := by
  simp only [zone_rect] at h1 h2
  split_ifs at h1 h2 <;> injection h1 with h1 <;> injection h2 with h2 <;> subst h1 <;> subst h2
  all_goals simp only [Rect.Disjoint, gcp_y, gcp_inner_top, pipe_y, consumer_x, ext_y,
    consumer_y, GAP, GCP_PAD, GCP_LABEL, LABEL_H, ZONE_PAD, NODE_W, H_SPACE, V_SPACE,
    COL_L_W, COL_C_W, COL_R_W, OUTSIDE_W, OUTSIDE_X, GCP_X, COL_L_X, COL_C_X, COL_R_X, GCP_W]
  all_goals first
    | (split_ifs <;> first | omega | tauto)
    | omega
    | tauto

lemma disj_serving_gcpObs (c : ZoneCounts) (r1 r2 : Rect)
    (h1 : zone_rect c .serving = some r1) (h2 : zone_rect c .gcpObs = some r2) :
    Rect.Disjoint r1 r2 := by
  simp only [zone_rect] at h1 h2
  split_ifs at h1 h2 <;> injection h1 with h1 <;> injection h2 with h2 <;> subst h1 <;> subst h2
  all_goals simp only [Rect.Disjoint, gcp_y, gcp_inner_top, pipe_y, consumer_x, ext_y,
    consumer_y, GAP, GCP_PAD, GCP_LABEL, LABEL_H, ZONE_PAD, NODE_W, H_SPACE, V_SPACE,
    COL_L_W, COL_C_W, COL_R_W, OUTSIDE_W, OUTSIDE_X, GCP_X, COL_L_X, COL_C_X, COL_R_X, GCP_W]
  all_goals first
    | (split_ifs <;> first | omega | tauto)
    | omega
    | tauto

lemma disj_serving_governance (c : ZoneCounts) (r1 r2 : Rect)
    (h1 : zone_rect c .serving = some r1) (h2 : zone_rect c .governance = some r2) :
    Rect.Disjoint r1 r2 := by
  simp only [zone_rect] at h1 h2
  split_ifs at h1 h2 <;> injection h1 with h1 <;> injection h2 with h2 <;> subst h1 <;> subst h2
  all_goals simp only [Rect.Disjoint, gcp_y, gcp_inner_top, pipe_y, consumer_x, ext_y,
    consumer_y, GAP, GCP_PAD, GCP_LABEL, LABEL_H, ZONE_PAD, NODE_W, H_SPACE, V_SPACE,
    COL_L_W, COL_C_W, COL_R_W, OUTSIDE_W, OUTSIDE_X, GCP_X, COL_L_X, COL_C_X, COL_R_X, GCP_W]
  all_goals first
    | (split_ifs <;> first | omega | tauto)
    | omega
    | tauto

lemma disj_orchestration_dataPipeline (c : ZoneCounts) (r1 r2 : Rect)
    (h1 : zone_rect c .orchestration = some r1) (h2 : zone_rect c .dataPipeline = some r2) :
    Rect.Disjoint r1 r2 := by
  simp only [zone_rect] at h1 h2
  split_ifs at h1 h2 <;> injection h1 with h1 <;> injection h2 with h2 <;> subst h1 <;> subst h2
  all_goals simp only [Rect.Disjoint, gcp_y, gcp_inner_top, pipe_y, consumer_x, ext_y,
    consumer_y, GAP, GCP_PAD, GCP_LABEL, LABEL_H, ZONE_PAD, NODE_W, H_SPACE, V_SPACE,
    COL_L_W, COL_C_W, COL_R_W, OUTSIDE_W, OUTSIDE_X, GCP_X, COL_L_X, COL_C_X, COL_R_X, GCP_W]
  all_goals first
    | (split_ifs <;> first | omega | tauto)
    | omega
    | tauto

lemma disj_orchestration_gcpObs (c : ZoneCounts) (r1 r2 : Rect)
    (h1 : zone_rect c .orchestration = some r1) (h2 : zone_rect c .gcpObs = some r2) :
    Rect.Disjoint r1 r2 := by
  simp only [zone_rect] at h1 h2
  split_ifs at h1 h2 <;> injection h1 with h1 <;> injection h2 with h2 <;> subst h1 <;> subst h2
  all_goals simp only [Rect.Disjoint, gcp_y, gcp_inner_top, pipe_y, consumer_x, ext_y,
    consumer_y, GAP, GCP_PAD, GCP_LABEL, LABEL_H, ZONE_PAD, NODE_W, H_SPACE, V_SPACE,
    COL_L_W, COL_C_W, COL_R_W, OUTSIDE_W, OUTSIDE_X, GCP_X, COL_L_X, COL_C_X, COL_R_X, GCP_W]
  all_goals first
    | (split_ifs <;> first | omega | tauto)
    | omega
    | tauto

lemma disj_orchestration_governance (c : ZoneCounts) (r1 r2 : Rect)
    (h1 : zone_rect c .orchestration = some r1) (h2 : zone_rect c .governance = some r2) :
    Rect.Disjoint r1 r2 := by
  simp only [zone_rect] at h1 h2
  split_ifs at h1 h2 <;> injection h1 with h1 <;> injection h2 with h2 <;> subst h1 <;> subst h2
  all_goals simp only [Rect.Disjoint, gcp_y, gcp_inner_top, pipe_y, consumer_x, ext_y,
    consumer_y, GAP, GCP_PAD, GCP_LABEL, LABEL_H, ZONE_PAD, NODE_W, H_SPACE, V_SPACE,
    COL_L_W, COL_C_W, COL_R_W, OUTSIDE_W, OUTSIDE_X, GCP_X, COL_L_X, COL_C_X, COL_R_X, GCP_W]
  all_goals first
    | (split_ifs <;> first | omega | tauto)
    | omega
    | tauto

lemma disj_dataPipeline_gcpObs (c : ZoneCounts) (r1 r2 : Rect)
    (h1 : zone_rect c .dataPipeline = some r1) (h2 : zone_rect c .gcpObs = some r2) :
    Rect.Disjoint r1 r2 := by
  simp only [zone_rect] at h1 h2
  split_ifs at h1 h2 <;> injection h1 with h1 <;> injection h2 with h2 <;> subst h1 <;> subst h2
  all_goals simp only [Rect.Disjoint, gcp_y, gcp_inner_top, pipe_y, consumer_x, ext_y,
    consumer_y, GAP, GCP_PAD, GCP_LABEL, LABEL_H, ZONE_PAD, NODE_W, H_SPACE, V_SPACE,
    COL_L_W, COL_C_W, COL_R_W, OUTSIDE_W, OUTSIDE_X, GCP_X, COL_L_X, COL_C_X, COL_R_X, GCP_W]
  all_goals first
    | (split_ifs <;> first | omega | tauto)
    | omega
    | tauto

lemma disj_dataPipeline_governance (c : ZoneCounts) (r1 r2 : Rect)
    (h1 : zone_rect c .dataPipeline = some r1) (h2 : zone_rect c .governance = some r2) :
    Rect.Disjoint r1 r2 := by
  simp only [zone_rect] at h1 h2
  split_ifs at h1 h2 <;> injection h1 with h1 <;> injection h2 with h2 <;> subst h1 <;> subst h2
  all_goals simp only [Rect.Disjoint, gcp_y, gcp_inner_top, pipe_y, consumer_x, ext_y,
    consumer_y, GAP, GCP_PAD, GCP_LABEL, LABEL_H, ZONE_PAD, NODE_W, H_SPACE, V_SPACE,
    COL_L_W, COL_C_W, COL_R_W, OUTSIDE_W, OUTSIDE_X, GCP_X, COL_L_X, COL_C_X, COL_R_X, GCP_W]
  all_goals first
    | (split_ifs <;> first | omega | tauto)
    | omega
    | tauto

lemma disj_gcpObs_governance (c : ZoneCounts) (r1 r2 : Rect)
    (h1 : zone_rect c .gcpObs = some r1) (h2 : zone_rect c .governance = some r2) :
    Rect.Disjoint r1 r2 := by
  simp only [zone_rect] at h1 h2
  split_ifs at h1 h2 <;> injection h1 with h1 <;> injection h2 with h2 <;> subst h1 <;> subst h2
  all_goals simp only [Rect.Disjoint, gcp_y, gcp_inner_top, pipe_y, consumer_x, ext_y,
    consumer_y, GAP, GCP_PAD, GCP_LABEL, LABEL_H, ZONE_PAD, NODE_W, H_SPACE, V_SPACE,
    COL_L_W, COL_C_W, COL_R_W, OUTSIDE_W, OUTSIDE_X, GCP_X, COL_L_X, COL_C_X, COL_R_X, GCP_W]
  all_goals first
    | (split_ifs <;> first | omega | tauto)
    | omega
    | tauto

/-! ### C1 — sibling zone rectangles never overlap -/

/-- C1: in the layout build_diagram computes, the zone rectangles of any two
distinct sibling zones (same nesting parent, both among the top-level zones
and among the children of the gcp zone) share no point, for every combination
of per-zone node counts — the sequential band-stacking guarantees it by
construction. -/
theorem sibling_zone_rects_disjoint (c : ZoneCounts) (z1 z2 : ZoneId)
    (hne : z1 ≠ z2) (hpar : zone_parent z1 = zone_parent z2)
    (r1 r2 : Rect) (h1 : zone_rect c z1 = some r1) (h2 : zone_rect c z2 = some r2) :
    Rect.Disjoint r1 r2 := by
  cases z1 <;> cases z2 <;>
    first
    | exact absurd rfl hne
    | exact absurd hpar (by decide)
    | exact disj_consumer_extIdentity c r1 r2 h1 h2
    | exact (disj_consumer_extIdentity c r2 r1 h2 h1).symm
    | exact disj_consumer_source c r1 r2 h1 h2
    | exact (disj_consumer_source c r2 r1 h2 h1).symm
    | exact disj_consumer_gcp c r1 r2 h1 h2
    | exact (disj_consumer_gcp c r2 r1 h2 h1).symm
    | exact disj_consumer_extLog c r1 r2 h1 h2
    | exact (disj_consumer_extLog c r2 r1 h2 h1).symm
    | exact disj_consumer_extAlert c r1 r2 h1 h2
    | exact (disj_consumer_extAlert c r2 r1 h2 h1).symm
    | exact disj_extIdentity_source c r1 r2 h1 h2
    | exact (disj_extIdentity_source c r2 r1 h2 h1).symm
    | exact disj_extIdentity_gcp c r1 r2 h1 h2
    | exact (disj_extIdentity_gcp c r2 r1 h2 h1).symm
    | exact disj_extIdentity_extLog c r1 r2 h1 h2
    | exact (disj_extIdentity_extLog c r2 r1 h2 h1).symm
    | exact disj_extIdentity_extAlert c r1 r2 h1 h2
    | exact (disj_extIdentity_extAlert c r2 r1 h2 h1).symm
    | exact disj_source_gcp c r1 r2 h1 h2
    | exact (disj_source_gcp c r2 r1 h2 h1).symm
    | exact disj_source_extLog c r1 r2 h1 h2
    | exact (disj_source_extLog c r2 r1 h2 h1).symm
    | exact disj_source_extAlert c r1 r2 h1 h2
    | exact (disj_source_extAlert c r2 r1 h2 h1).symm
    | exact disj_gcp_extLog c r1 r2 h1 h2
    | exact (disj_gcp_extLog c r2 r1 h2 h1).symm
    | exact disj_gcp_extAlert c r1 r2 h1 h2
    | exact (disj_gcp_extAlert c r2 r1 h2 h1).symm
    | exact disj_extLog_extAlert c r1 r2 h1 h2
    | exact (disj_extLog_extAlert c r2 r1 h2 h1).symm
    | exact disj_security_serving c r1 r2 h1 h2
    | exact (disj_security_serving c r2 r1 h2 h1).symm
    | exact disj_security_orchestration c r1 r2 h1 h2
    | exact (disj_security_orchestration c r2 r1 h2 h1).symm
    | exact disj_security_dataPipeline c r1 r2 h1 h2
    | exact (disj_security_dataPipeline c r2 r1 h2 h1).symm
    | exact disj_security_gcpObs c r1 r2 h1 h2
    | exact (disj_security_gcpObs c r2 r1 h2 h1).symm
    | exact disj_security_governance c r1 r2 h1 h2
    | exact (disj_security_governance c r2 r1 h2 h1).symm
    | exact disj_serving_orchestration c r1 r2 h1 h2
    | exact (disj_serving_orchestration c r2 r1 h2 h1).symm
    | exact disj_serving_dataPipeline c r1 r2 h1 h2
    | exact (disj_serving_dataPipeline c r2 r1 h2 h1).symm
    | exact disj_serving_gcpObs c r1 r2 h1 h2
    | exact (disj_serving_gcpObs c r2 r1 h2 h1).symm
    | exact disj_serving_governance c r1 r2 h1 h2
    | exact (disj_serving_governance c r2 r1 h2 h1).symm
    | exact disj_orchestration_dataPipeline c r1 r2 h1 h2
    | exact (disj_orchestration_dataPipeline c r2 r1 h2 h1).symm
    | exact disj_orchestration_gcpObs c r1 r2 h1 h2
    | exact (disj_orchestration_gcpObs c r2 r1 h2 h1).symm
    | exact disj_orchestration_governance c r1 r2 h1 h2
    | exact (disj_orchestration_governance c r2 r1 h2 h1).symm
    | exact disj_dataPipeline_gcpObs c r1 r2 h1 h2
    | exact (disj_dataPipeline_gcpObs c r2 r1 h2 h1).symm
    | exact disj_dataPipeline_governance c r1 r2 h1 h2
    | exact (disj_dataPipeline_governance c r2 r1 h2 h1).symm
    | exact disj_gcpObs_governance c r1 r2 h1 h2
    | exact (disj_gcpObs_governance c r2 r1 h2 h1).symm

/-- Concrete instance: with one node in every zone, the security and
governance rectangles of the gcp column are disjoint. -/
theorem sibling_zone_rects_disjoint_witness :
    Rect.Disjoint ⟨275, 363, 180, 182⟩ ⟨275, 585, 180, 182⟩ :=
  sibling_zone_rects_disjoint ⟨1, 1, 1, 1, 1, 1, 1, 1, 1, 1, 1, 1, 1, 1⟩
    .gcpSecurity .governance (by decide) (by decide)
    ⟨275, 363, 180, 182⟩ ⟨275, 585, 180, 182⟩ (by decide) (by decide)

end ArchGen
